import Mathlib

/-
Shallow embedding of redisco/models/attributes.py (the attribute / field
descriptor layer of the redisco object mapper).

Modelling conventions, used throughout:
* Python values reaching the attribute layer are modelled by the inductive
  `PyVal` (None, str, int, bool).  Python floats are modelled as exact
  rationals (ℚ); `"%f"` formatting and `float(...)` parsing are modelled
  with exact rational arithmetic.
* A raised Python exception is modelled as `none` / `Except.error`.
* Record identifiers (`instance.id`, `matches.first().id`) are modelled
  as natural numbers; `instance.id` raising `MissingID` is modelled by
  `Option ℕ` being `none`.
* `str(n)` for an int and the digit loops of `int(...)` / `float(...)`
  are modelled through `Nat.digits 10`; `int(...)`/`float(...)` are
  modelled on their core grammar (optional sign, decimal digits, and for
  float an optional fractional part).  Tolerance of surrounding
  whitespace, underscores, exponents and inf/nan spellings is omitted:
  no claim depends on those inputs, and the model is used consistently
  on both the encode and the decode side.
-/

namespace Redisco

/-- Python values handled by the attribute layer: `None`, `str`, `int`, `bool`. -/
inductive PyVal where
  | vnone
  | vstr (s : String)
  | vint (n : ℤ)
  | vbool (b : Bool)
deriving DecidableEq, Repr

/-- A single field-level validation error: `(field name, reason)`. -/
abbrev FieldErr := String × String

/-! ### Decimal digits: the model of Python `str(int)`, `int(str)`, `float(str)` -/

/-- Big-endian decimal digit characters of a natural number, as produced by
Python `str` on a non-negative integer (`str(0) = "0"`). -/
def natToDigits (n : ℕ) : List Char :=
  if n = 0 then ['0'] else (Nat.digits 10 n).reverse.map Nat.digitChar

/-- Horner accumulation of a run of decimal digit characters (the digit loop
inside Python `int(...)` / `float(...)`); assumes the characters were already
checked to be digits. -/
def digitsToNatRaw (cs : List Char) : ℕ :=
  cs.foldl (fun acc c => acc * 10 + (c.toNat - 48)) 0

/-- Parse a non-empty all-digit character run to a natural number;
`none` models Python raising `ValueError`. -/
def digitsToNat (cs : List Char) : Option ℕ :=
  if cs ≠ [] ∧ cs.all Char.isDigit then some (digitsToNatRaw cs) else none

/-- Python `str` on an int: optional minus sign followed by decimal digits. -/
def str_of_int (n : ℤ) : String :=
  String.mk ((if n < 0 then ['-'] else []) ++ natToDigits n.natAbs)

/-- Python `int(s)` on a string: optional sign then decimal digits;
`none` models `ValueError`. -/
def pyint_parse (s : String) : Option ℤ :=
  match s.toList with
  | [] => none
  | c :: rest =>
    if c = '-' then (digitsToNat rest).map (fun (m : ℕ) => -(m : ℤ))
    else if c = '+' then (digitsToNat rest).map (fun (m : ℕ) => (m : ℤ))
    else (digitsToNat (c :: rest)).map (fun (m : ℕ) => (m : ℤ))

/-- Character test used to split a float literal at the decimal point. -/
def notDot (ch : Char) : Bool := ch ≠ '.'

/-- Python `float(s)` on a string, modelled exactly over ℚ on the grammar
`[sign] digits [. digits]` (also `digits.` and `.digits`);
`none` models `ValueError`. -/
def pyfloat_parse (s : String) : Option ℚ :=
  let cs0 := s.toList
  let neg : Bool := cs0.head? = some '-'
  let cs := if cs0.head? = some '-' ∨ cs0.head? = some '+' then cs0.tail else cs0
  let ip := cs.takeWhile notDot
  let body : Option ℚ :=
    match cs.dropWhile notDot with
    | [] => (digitsToNat ip).map (fun (m : ℕ) => (m : ℚ))
    | _ :: frac =>
      if ip.all Char.isDigit ∧ frac.all Char.isDigit ∧ (ip ≠ [] ∨ frac ≠ []) then
        some ((digitsToNatRaw ip : ℚ) + (digitsToNatRaw frac : ℚ) / (10 : ℚ) ^ frac.length)
      else none
  if neg then body.map (fun q => -q) else body

/-- Left-pad a digit run with `'0'` to six characters (the `%06d` used for
the microsecond / fractional part). -/
def padTo6 (cs : List Char) : List Char :=
  List.replicate (6 - cs.length) '0' ++ cs

/-- C `"%f"` formatting of a (model) float: round to six fractional decimal
digits and print `[-]<int>.<6 digits>`. -/
def pyformat_f (q : ℚ) : String :=
  let n : ℤ := round (q * 1000000)
  let m : ℕ := n.natAbs
  String.mk ((if n < 0 then ['-'] else []) ++
    natToDigits (m / 1000000) ++ '.' :: padTo6 (natToDigits (m % 1000000)))

/-! ### Python value helpers -/

/-- Python truthiness of a `PyVal` (`if val:`). -/
def py_truthy (v : PyVal) : Bool :=
  match v with
  | PyVal.vnone => false
  | PyVal.vstr s => s ≠ ""
  | PyVal.vint n => n ≠ 0
  | PyVal.vbool b => b

/-- Python `str(...)` conversion of a `PyVal`. -/
def py_str (v : PyVal) : String :=
  match v with
  | PyVal.vnone => "None"
  | PyVal.vstr s => s
  | PyVal.vint n => str_of_int n
  | PyVal.vbool b => if b then "True" else "False"

/-- Python `str.strip()` (whitespace trim at both ends). -/
def py_strip (s : String) : String :=
  String.mk (((s.toList.dropWhile Char.isWhitespace).reverse.dropWhile
    Char.isWhitespace).reverse)

/-! ### Codecs (`typecast_for_storage` / `typecast_for_read` of each field kind) -/

/-- `IntegerField.acceptable_types`: `(int, int)`.  In Python `bool` is a
subclass of `int`, so `isinstance` accepts booleans here. -/
def IntegerField_acceptable (v : PyVal) : Bool :=
  match v with
  | PyVal.vint _ => true
  | PyVal.vbool _ => true
  | _ => false

/-- `IntegerField.typecast_for_storage`: `"0"` for `None`, else `str(value)`. -/
def IntegerField_typecast_for_storage (v : PyVal) : String :=
  match v with
  | PyVal.vnone => "0"
  | w => py_str w

/-- `IntegerField.typecast_for_read`: `int(value)`; `none` models `ValueError`. -/
def IntegerField_typecast_for_read (s : String) : Option ℤ :=
  pyint_parse s

/-- `BooleanField.typecast_for_storage`: `"0"` for `None`, else `"1" if value else "0"`. -/
def BooleanField_typecast_for_storage (v : PyVal) : String :=
  match v with
  | PyVal.vnone => "0"
  | w => if py_truthy w then "1" else "0"

/-- `BooleanField.typecast_for_read`: `bool(int(value))`. -/
def BooleanField_typecast_for_read (s : String) : Option Bool :=
  (pyint_parse s).map (fun n => decide (n ≠ 0))

/-- `FloatField.typecast_for_storage`: `"0"` for `None`, else `"%f" % value`
(floats modelled as exact rationals). -/
def FloatField_typecast_for_storage (v : Option ℚ) : String :=
  match v with
  | none => "0"
  | some q => pyformat_f q

/-- `FloatField.typecast_for_read`: `float(value)`. -/
def FloatField_typecast_for_read (s : String) : Option ℚ :=
  pyfloat_parse s

/-- `DateTimeField.typecast_for_read`: `datetime.fromtimestamp(float(value), tzutc())`
inside `try/except (TypeError, ValueError)` returning `None`.  A datetime is
modelled by its POSIX timestamp (the timezone is always `tzutc()` here), so
the successful branch carries the parsed timestamp; a failed `float(...)`
parse is the absorbed `ValueError`. -/
def DateTimeField_typecast_for_read (s : String) : Option ℚ :=
  (pyfloat_parse s).map (fun t => t)

/-- `DateField.typecast_for_read`: `date.fromtimestamp(float(value))` inside the
same `try/except`.  A date is modelled as whole days since the epoch; the day
computation assumes a UTC local zone (the source comment reads the value
as UTC). -/
def DateField_typecast_for_read (s : String) : Option ℤ :=
  (pyfloat_parse s).map (fun t => ⌊t / 86400⌋)

/-- `TimeDeltaField.typecast_for_read`: `None` input becomes `0.` seconds, else
`timedelta(seconds=float(value))` inside `try/except` returning `None`.
A timedelta is modelled by its total seconds as a rational. -/
def TimeDeltaField_typecast_for_read (v : Option String) : Option ℚ :=
  match v with
  | none => some 0
  | some s => (pyfloat_parse s).map (fun t => t)

/-! ### `Attribute.validate` and `Attribute.validate_uniqueness` -/

/-- `Attribute.validate_uniqueness`: encode the value with the field's codec,
query `instance.__class__.objects.filter(**{name: encoded})` (modelled by
the function `filt` from encoded strings to the list of matching record
identifiers), and return `(name, 'not unique')` when the matches rule out
the current instance.  `instId = none` models `instance.id` raising
`MissingID`. -/
def Attribute_validate_uniqueness (name : String) (storage : PyVal → String)
    (filt : String → List ℕ) (instId : Option ℕ) (val : PyVal) :
    Option FieldErr :=
  let ms := filt (storage val)
  if 0 < ms.length then
    if ms.length ≠ 1 ∨ instId = none ∨ ms.head? ≠ instId then
      some (name, "not unique")
    else none
  else none

/-- `Attribute.validate`, line by line: accumulate type, required, uniqueness
and custom-validator errors into one list and raise `FieldValidationError`
(modelled by `Except.error`) exactly when the list is non-empty.
`acceptable` models `isinstance(val, self.acceptable_types())`, `storage`
the codec used by the uniqueness check, `validator` the optional custom
callable `self.validator(self.name, val)`. -/
def Attribute_validate (name : String) (acceptable : PyVal → Bool)
    (storage : PyVal → String) (filt : String → List ℕ) (instId : Option ℕ)
    (required unique : Bool)
    (validator : Option (String → PyVal → List FieldErr)) (val : PyVal) :
    Except (List FieldErr) Unit :=
  let errors : List FieldErr := []
  let errors :=
    if val ≠ PyVal.vnone ∧ acceptable val = false then
      errors ++ [(name, "bad type")]
    else errors
  let errors :=
    if required = true ∧ (val = PyVal.vnone ∨ py_strip (py_str val) = "") then
      errors ++ [(name, "required")]
    else errors
  let errors :=
    if py_truthy val = true ∧ unique = true then
      match Attribute_validate_uniqueness name storage filt instId val with
      | some e => errors ++ [e]
      | none => errors
    else errors
  let errors :=
    match validator with
    | some f => errors ++ f name val
    | none => errors
  if errors = [] then Except.ok () else Except.error errors

/-- The type-check segment of `Attribute.validate`. -/
def typeCheck (name : String) (acceptable : PyVal → Bool) (val : PyVal) :
    List FieldErr :=
  if val ≠ PyVal.vnone ∧ acceptable val = false then [(name, "bad type")] else []

/-- The required-check segment of `Attribute.validate`. -/
def requiredCheck (name : String) (required : Bool) (val : PyVal) :
    List FieldErr :=
  if required = true ∧ (val = PyVal.vnone ∨ py_strip (py_str val) = "") then
    [(name, "required")]
  else []

/-- The uniqueness-check segment of `Attribute.validate` (runs only for a
truthy value on a `unique` field). -/
def uniquenessCheck (name : String) (storage : PyVal → String)
    (filt : String → List ℕ) (instId : Option ℕ) (unique : Bool) (val : PyVal) :
    List FieldErr :=
  if py_truthy val = true ∧ unique = true then
    match Attribute_validate_uniqueness name storage filt instId val with
    | some e => [e]
    | none => []
  else []

/-- The custom-validator segment of `Attribute.validate`. -/
def customCheck (name : String)
    (validator : Option (String → PyVal → List FieldErr)) (val : PyVal) :
    List FieldErr :=
  match validator with
  | some f => f name val
  | none => []

/-- The error list carried by a validation outcome (empty on success). -/
def errorsOf (r : Except (List FieldErr) Unit) : List FieldErr :=
  match r with
  | Except.error e => e
  | Except.ok _ => []

/-! ### `CharField` -/

/-- `Attribute.acceptable_types` for the base/char field: `str`. -/
def CharField_acceptable (v : PyVal) : Bool :=
  match v with
  | PyVal.vstr _ => true
  | _ => false

/-- `CharField.validate`: collect the base `Attribute.validate` errors
(catching its `FieldValidationError`), then append `(name, 'exceeds max
length')` when the value is truthy and longer than `max_length`, and raise
the combined list when non-empty.  The value of a char field is a string
or `None`. -/
def CharField_validate (name : String) (required unique : Bool)
    (maxLength : ℕ) (validator : Option (String → PyVal → List FieldErr))
    (filt : String → List ℕ) (instId : Option ℕ) (val : Option String) :
    Except (List FieldErr) Unit :=
  let pv := match val with
    | none => PyVal.vnone
    | some s => PyVal.vstr s
  let errors :=
    match Attribute_validate name CharField_acceptable py_str filt instId
        required unique validator pv with
    | Except.error errs => errs
    | Except.ok _ => []
  let errors :=
    match val with
    | some s => if s ≠ "" ∧ maxLength < s.length then
        errors ++ [(name, "exceeds max length")]
      else errors
    | none => errors
  if errors = [] then Except.ok () else Except.error errors

/-! ### `ReferenceField` -/

/-- The per-instance state a reference field touches: the cached-object slot
`_<name>` (`none` when the attribute is absent, `some c` when present, where
`c` is the cached object-or-None, objects modelled by their identifier) and
the derived foreign-identifier attribute `<name>_id`. -/
structure RefState where
  cached : Option (Option ℕ)
  attid : Option ℕ
deriving DecidableEq, Repr

/-- A value assigned to a reference field: `None`, an instance of the target
model (carrying its identifier), or a value of some other type. -/
inductive RefValue where
  | rnone
  | target (i : ℕ)
  | wrong (tag : String)
deriving DecidableEq, Repr

/-- `ReferenceField.__set__`: raise `TypeError` (returning the untouched
state) unless the value is `None` or an instance of the target model; then
delete the cached `_<name>` slot, set `<name>_id` to `None`, and, for a
non-null value, set `<name>_id` to the target's identifier. -/
def ReferenceField_set (st : RefState) (v : RefValue) :
    Option String × RefState :=
  match v with
  | RefValue.wrong _ => (some "TypeError", st)
  | RefValue.rnone =>
    let st1 : RefState := { st with cached := none }
    let st2 : RefState := { st1 with attid := none }
    (none, st2)
  | RefValue.target i =>
    let st1 : RefState := { st with cached := none }
    let st2 : RefState := { st1 with attid := none }
    (none, { st2 with attid := some i })

/-! ### `ListField` -/

/-- `ListField.__get__` for a model-typed target: return the cached `_<name>`
slot if present; otherwise start from the default (new instance) or the
stored backing sequence, materialize by resolving every identifier through
`klass.objects.get_by_id` (modelled by `lookup`) keeping only the non-`None`
results, cache the result and return it.  Returns the value together with
the updated cache slot. -/
def ListField_get {β : Type} (lookup : ℕ → Option β) (isNew : Bool)
    (defaultVal stored : List ℕ) (cached : Option (List β)) :
    List β × Option (List β) :=
  match cached with
  | some v => (v, some v)
  | none =>
    let val := if isNew = true then defaultVal else stored
    let out := (val.map lookup).filterMap id
    (out, some out)

/-! ### `Counter` -/

/-- `Counter.__get__`: for a non-new instance read `db.hget(key, name)`
directly (the cached `_<name>` slot, passed as `cache`, is never consulted),
returning `0` when absent and `int(v)` otherwise; for a new instance
return `0`. -/
def Counter_get (isNew : Bool) (stored : Option String) (cache : Option ℤ) :
    Except String ℤ :=
  if isNew = false then
    match stored with
    | none => Except.ok 0
    | some s =>
      match pyint_parse s with
      | some n => Except.ok n
      | none => Except.error "ValueError"
  else Except.ok 0

/-- `Counter.__set__`: always raises. -/
def Counter_set (value : PyVal) : Except String Unit :=
  Except.error "can't set a counter."

/-! ### Lemmas about the decimal digit model -/

theorem isDigit_digitChar {d : ℕ} (h : d < 10) : (Nat.digitChar d).isDigit = true := by
  interval_cases d <;> decide

theorem toNat_digitChar {d : ℕ} (h : d < 10) : (Nat.digitChar d).toNat - 48 = d := by
  interval_cases d <;> decide

theorem isDigit_ne_minus {c : Char} (h : c.isDigit = true) : c ≠ '-' := by
  intro hc; rw [hc] at h; exact absurd h (by decide)

theorem isDigit_ne_plus {c : Char} (h : c.isDigit = true) : c ≠ '+' := by
  intro hc; rw [hc] at h; exact absurd h (by decide)

theorem isDigit_ne_dot {c : Char} (h : c.isDigit = true) : c ≠ '.' := by
  intro hc; rw [hc] at h; exact absurd h (by decide)

theorem natToDigits_ne_nil (n : ℕ) : natToDigits n ≠ [] := by
  unfold natToDigits
  by_cases h : n = 0
  · simp [h]
  · simp only [h, if_false]
    simp [Nat.digits_ne_nil_iff_ne_zero, h]

theorem mem_natToDigits_isDigit {n : ℕ} {c : Char} (h : c ∈ natToDigits n) :
    c.isDigit = true := by
  unfold natToDigits at h
  by_cases h0 : n = 0
  · simp [h0] at h
    rw [h]; decide
  · simp only [h0, if_false, List.mem_map, List.mem_reverse] at h
    obtain ⟨d, hd, rfl⟩ := h
    exact isDigit_digitChar (Nat.digits_lt_base (by norm_num) hd)

theorem foldl_horner (l : List ℕ) (a : ℕ) :
    List.foldl (fun acc d => acc * 10 + d) a l =
      a * 10 ^ l.length + Nat.ofDigits 10 l.reverse := by
  induction l generalizing a with
  | nil => simp [Nat.ofDigits]
  | cons e t ih =>
    rw [List.foldl_cons, ih (a * 10 + e), List.reverse_cons, Nat.ofDigits_append]
    simp [Nat.ofDigits]
    ring

theorem foldl_digitChar_map (l : List ℕ) (h : ∀ d ∈ l, d < 10) (a : ℕ) :
    List.foldl (fun acc c => acc * 10 + (c.toNat - 48)) a (l.map Nat.digitChar) =
      List.foldl (fun acc d => acc * 10 + d) a l := by
  induction l generalizing a with
  | nil => rfl
  | cons e t ih =>
    rw [List.map_cons, List.foldl_cons, List.foldl_cons,
      toNat_digitChar (h e (List.mem_cons_self e t))]
    exact ih (fun d hd => h d (List.mem_cons_of_mem e hd)) _

theorem digitsToNatRaw_natToDigits (n : ℕ) : digitsToNatRaw (natToDigits n) = n := by
  unfold natToDigits digitsToNatRaw
  by_cases h0 : n = 0
  · simp [h0]
  · simp only [h0, if_false]
    rw [foldl_digitChar_map _ (fun d hd =>
      Nat.digits_lt_base (by norm_num) (List.mem_reverse.mp hd)) 0]
    rw [foldl_horner]
    simp [Nat.ofDigits_digits]

theorem natToDigits_all_isDigit (n : ℕ) : (natToDigits n).all Char.isDigit = true := by
  rw [List.all_eq_true]
  intro c hc
  exact mem_natToDigits_isDigit hc

theorem digitsToNat_natToDigits (n : ℕ) : digitsToNat (natToDigits n) = some n := by
  unfold digitsToNat
  rw [if_pos ⟨natToDigits_ne_nil n, natToDigits_all_isDigit n⟩,
    digitsToNatRaw_natToDigits]

theorem toList_mk (cs : List Char) : (String.mk cs).toList = cs := rfl

theorem pyint_parse_str_of_int (n : ℤ) : pyint_parse (str_of_int n) = some n := by
  unfold str_of_int pyint_parse
  by_cases hn : n < 0
  · rw [if_pos hn, toList_mk]
    simp only [List.cons_append, List.nil_append]
    simp [digitsToNat_natToDigits, abs_of_neg hn]
  · rw [if_neg hn, toList_mk, List.nil_append]
    obtain ⟨c, rest, hcr⟩ := List.exists_cons_of_ne_nil (natToDigits_ne_nil n.natAbs)
    have hcd : c.isDigit = true :=
      mem_natToDigits_isDigit (hcr ▸ List.mem_cons_self c rest)
    rw [hcr]
    simp only [isDigit_ne_minus hcd, isDigit_ne_plus hcd, if_false, ← hcr,
      digitsToNat_natToDigits, Option.map_some, if_neg (isDigit_ne_minus hcd),
      if_neg (isDigit_ne_plus hcd)]
    rw [Option.map_some']
    rw [Int.natAbs_of_nonneg (le_of_not_lt hn)]

theorem foldl_replicate_zero (k : ℕ) :
    List.foldl (fun acc c => acc * 10 + (c.toNat - 48)) 0 (List.replicate k '0') = 0 := by
  induction k with
  | zero => rfl
  | succ k ih => rw [List.replicate_succ, List.foldl_cons]; simpa using ih

theorem digitsToNatRaw_padTo6 (cs : List Char) :
    digitsToNatRaw (padTo6 cs) = digitsToNatRaw cs := by
  unfold padTo6 digitsToNatRaw
  rw [List.foldl_append, foldl_replicate_zero]

theorem padTo6_all_isDigit {cs : List Char} (h : cs.all Char.isDigit = true) :
    (padTo6 cs).all Char.isDigit = true := by
  unfold padTo6
  rw [List.all_append, h, Bool.and_true, List.all_eq_true]
  intro c hc
  rw [(List.eq_of_mem_replicate hc)]
  decide

theorem padTo6_length {cs : List Char} (h : cs.length ≤ 6) :
    (padTo6 cs).length = 6 := by
  unfold padTo6
  rw [List.length_append, List.length_replicate]
  omega

theorem natToDigits_length_le_six {n : ℕ} (h : n < 1000000) :
    (natToDigits n).length ≤ 6 := by
  unfold natToDigits
  by_cases h0 : n = 0
  · simp [h0]
  · simp only [h0, if_false, List.length_map, List.length_reverse]
    rw [Nat.digits_len 10 n (by norm_num) h0]
    have hlog : Nat.log 10 n < 6 := Nat.log_lt_of_lt_pow h0 (by norm_num; omega)
    omega

theorem takeWhile_append_cons (p : Char → Bool) (A B : List Char) (x : Char)
    (hA : ∀ c ∈ A, p c = true) (hx : p x = false) :
    ((A ++ x :: B).takeWhile p = A) ∧ ((A ++ x :: B).dropWhile p = x :: B) := by
  induction A with
  | nil => simp [List.takeWhile_cons, List.dropWhile_cons, hx]
  | cons a A ih =>
    have ha : p a = true := hA a (List.mem_cons_self a A)
    have hrec := ih (fun c hc => hA c (List.mem_cons_of_mem a hc))
    simp [List.takeWhile_cons, List.dropWhile_cons, ha, hrec.1, hrec.2]

theorem notDot_of_isDigit {c : Char} (h : c.isDigit = true) : notDot c = true := by
  simp [notDot, isDigit_ne_dot h]

theorem notDot_dot : notDot '.' = false := by decide

theorem div_mod_cast_q (m : ℕ) :
    ((m / 1000000 : ℕ) : ℚ) + ((m % 1000000 : ℕ) : ℚ) / (10 : ℚ) ^ 6 =
      (m : ℚ) / 1000000 := by
  have hnat : m / 1000000 * 1000000 + m % 1000000 = m := by omega
  have h6 : ((10 : ℚ) ^ 6) = 1000000 := by norm_num
  rw [h6, eq_div_iff (by norm_num : (1000000 : ℚ) ≠ 0), add_mul,
    div_mul_cancel₀ _ (by norm_num : (1000000 : ℚ) ≠ 0)]
  exact_mod_cast congrArg (fun k : ℕ => (k : ℚ)) hnat

theorem pyfloat_parse_mk_digits (m : ℕ) :
    pyfloat_parse (String.mk (natToDigits (m / 1000000) ++ '.' ::
      padTo6 (natToDigits (m % 1000000)))) = some ((m : ℚ) / 1000000) := by
  have hAdig := natToDigits_all_isDigit (m / 1000000)
  have hBdig : (padTo6 (natToDigits (m % 1000000))).all Char.isDigit = true :=
    padTo6_all_isDigit (natToDigits_all_isDigit _)
  have hBlen : (padTo6 (natToDigits (m % 1000000))).length = 6 :=
    padTo6_length (natToDigits_length_le_six (Nat.mod_lt m (by norm_num)))
  have hsplit := takeWhile_append_cons notDot (natToDigits (m / 1000000))
    (padTo6 (natToDigits (m % 1000000))) '.'
    (fun c hc => notDot_of_isDigit (mem_natToDigits_isDigit hc)) notDot_dot
  obtain ⟨c, A', hcA⟩ :=
    List.exists_cons_of_ne_nil (natToDigits_ne_nil (m / 1000000))
  have hc_digit : c.isDigit = true :=
    mem_natToDigits_isDigit (by rw [hcA]; exact List.mem_cons_self c A')
  have hhead : (natToDigits (m / 1000000) ++ '.' ::
      padTo6 (natToDigits (m % 1000000))).head? = some c := by
    rw [hcA, List.cons_append, List.head?_cons]
  have hne1 : some c ≠ some '-' := by
    simpa using isDigit_ne_minus hc_digit
  have hne2 : some c ≠ some '+' := by
    simpa using isDigit_ne_plus hc_digit
  unfold pyfloat_parse
  rw [toList_mk]
  simp [hhead, hne1, hne2, hsplit.1, hsplit.2, hAdig, hBdig, natToDigits_ne_nil,
    digitsToNatRaw_padTo6, digitsToNatRaw_natToDigits, hBlen, div_mod_cast_q]

theorem pyfloat_parse_mk_digits_neg (m : ℕ) :
    pyfloat_parse (String.mk ('-' :: (natToDigits (m / 1000000) ++ '.' ::
      padTo6 (natToDigits (m % 1000000))))) = some (-((m : ℚ) / 1000000)) := by
  have hAdig := natToDigits_all_isDigit (m / 1000000)
  have hBdig : (padTo6 (natToDigits (m % 1000000))).all Char.isDigit = true :=
    padTo6_all_isDigit (natToDigits_all_isDigit _)
  have hBlen : (padTo6 (natToDigits (m % 1000000))).length = 6 :=
    padTo6_length (natToDigits_length_le_six (Nat.mod_lt m (by norm_num)))
  have hsplit := takeWhile_append_cons notDot (natToDigits (m / 1000000))
    (padTo6 (natToDigits (m % 1000000))) '.'
    (fun c hc => notDot_of_isDigit (mem_natToDigits_isDigit hc)) notDot_dot
  unfold pyfloat_parse
  rw [toList_mk]
  simp [List.head?_cons, List.tail_cons, hsplit.1, hsplit.2, hAdig, hBdig,
    natToDigits_ne_nil, digitsToNatRaw_padTo6, digitsToNatRaw_natToDigits,
    hBlen, div_mod_cast_q]

theorem pyfloat_parse_pyformat_f {q : ℚ} {n : ℤ} (h : q * 1000000 = (n : ℚ)) :
    pyfloat_parse (pyformat_f q) = some q := by
  have hr : round (q * 1000000) = n := by rw [h]; exact round_intCast n
  have hq : q = (n : ℚ) / 1000000 := by
    rw [eq_div_iff (by norm_num : (1000000 : ℚ) ≠ 0)]; exact h
  unfold pyformat_f
  rw [hr]
  dsimp only
  by_cases hneg : n < 0
  · rw [if_pos hneg, List.singleton_append, List.cons_append]
    rw [pyfloat_parse_mk_digits_neg]
    congr 1
    rw [hq]
    have habs : ((n.natAbs : ℕ) : ℚ) = -(n : ℚ) := by
      rw [Int.cast_natAbs, abs_of_neg hneg]
      push_cast
      ring
    rw [habs]
    ring
  · rw [if_neg hneg, List.nil_append]
    rw [pyfloat_parse_mk_digits]
    congr 1
    rw [hq]
    have habs : ((n.natAbs : ℕ) : ℚ) = (n : ℚ) := by
      rw [Int.cast_natAbs, abs_of_nonneg (le_of_not_lt hneg)]
    rw [habs]

/-! ### Claim theorems -/

/-- C3 counterexample: the round-trip claim fails as stated.  `True` is
accepted by `IntegerField.acceptable_types()` (Python `bool` is an `int`
subtype) but `str(True) = "True"` cannot be parsed back by `int(...)`, so the
read raises instead of returning the value; and the float value `2⁻²³`,
accepted as a float, is formatted by `"%f"` as `"0.000000"` and decodes to
`0 ≠ 2⁻²³` — a precision truncation not among the documented ones. -/
theorem C3_counterexample :
    (IntegerField_acceptable (PyVal.vbool true) = true ∧
     IntegerField_typecast_for_read
       (IntegerField_typecast_for_storage (PyVal.vbool true)) = none) ∧
    ((1 : ℚ) / 8388608 ≠ 0 ∧
     FloatField_typecast_for_read
       (FloatField_typecast_for_storage (some ((1 : ℚ) / 8388608))) = some 0) := by
  refine ⟨⟨rfl, rfl⟩, ⟨by norm_num, ?_⟩⟩
  have hr0 : round ((1 : ℚ) / 8388608 * 1000000) = 0 := by
    rw [round_eq, Int.floor_eq_zero_iff]
    constructor <;> norm_num
  have hs : FloatField_typecast_for_storage (some ((1 : ℚ) / 8388608)) =
      "0.000000" := by
    unfold FloatField_typecast_for_storage pyformat_f
    dsimp only
    rw [hr0]
    rfl
  have h0 : ("0.000000" : String) = String.mk (natToDigits (0 / 1000000) ++ '.' ::
      padTo6 (natToDigits (0 % 1000000))) := rfl
  rw [hs]
  unfold FloatField_typecast_for_read
  rw [h0, pyfloat_parse_mk_digits]
  norm_num

/-- C3 (amended): `typecast_for_read ∘ typecast_for_storage` is the identity
on every true integer value of the integer codec and on both booleans of the
boolean codec, and on every float value exactly representable with six
fractional decimal digits for the float codec (the `"%f"` fixed-point format
truncates finer precision); boolean values fed through the integer codec,
though accepted by `acceptable_types()`, do not round-trip. -/
theorem C3_roundtrip_amended :
    (∀ n : ℤ, IntegerField_typecast_for_read
      (IntegerField_typecast_for_storage (PyVal.vint n)) = some n) ∧
    (∀ b : Bool, BooleanField_typecast_for_read
      (BooleanField_typecast_for_storage (PyVal.vbool b)) = some b) ∧
    (∀ (q : ℚ) (n : ℤ), q * 1000000 = (n : ℚ) →
      FloatField_typecast_for_read
        (FloatField_typecast_for_storage (some q)) = some q) := by
  refine ⟨fun n => pyint_parse_str_of_int n, fun b => ?_, fun q n h => pyfloat_parse_pyformat_f h⟩
  cases b <;> rfl

/-- C3 witness: the float round-trip at the concrete value `1/4`. -/
theorem C3_roundtrip_witness :
    FloatField_typecast_for_read
      (FloatField_typecast_for_storage (some ((1 : ℚ) / 4))) =
      some ((1 : ℚ) / 4) :=
  C3_roundtrip_amended.2.2 ((1 : ℚ) / 4) 250000 (by norm_num)

/-- C4: encoding a null value with the integer, float or boolean codec yields
`"0"`, and decoding a stored string that `float(...)` cannot parse with the
datetime, date or timedelta codec returns a null value without raising. -/
theorem C4_null_encoding_and_malformed_decode :
    (IntegerField_typecast_for_storage PyVal.vnone = "0" ∧
     FloatField_typecast_for_storage none = "0" ∧
     BooleanField_typecast_for_storage PyVal.vnone = "0") ∧
    (∀ s : String, pyfloat_parse s = none →
      DateTimeField_typecast_for_read s = none ∧
      DateField_typecast_for_read s = none ∧
      TimeDeltaField_typecast_for_read (some s) = none) := by
  refine ⟨⟨rfl, rfl, rfl⟩, fun s h => ?_⟩
  unfold DateTimeField_typecast_for_read DateField_typecast_for_read
    TimeDeltaField_typecast_for_read
  dsimp only
  rw [h]
  exact ⟨rfl, rfl, rfl⟩

/-- C4 witness: the malformed stored string `"garbage"` decodes to null under
all three try/except codecs. -/
theorem C4_witness :
    DateTimeField_typecast_for_read "garbage" = none ∧
    DateField_typecast_for_read "garbage" = none ∧
    TimeDeltaField_typecast_for_read (some "garbage") = none :=
  C4_null_encoding_and_malformed_decode.2 "garbage" rfl

/-- C5: assigning `None` to a reference field clears both the cached-object
slot and the derived `<field>_id` attribute in the same operation, whatever
their previous contents; assigning a target instance clears the cached
object and rewrites the derived attribute to the target's identifier. -/
theorem C5_reference_assignment_clears (st : RefState) (i : ℕ) :
    ReferenceField_set st RefValue.rnone =
      (none, { cached := none, attid := none }) ∧
    ReferenceField_set st (RefValue.target i) =
      (none, { cached := none, attid := some i }) := by
  cases st
  exact ⟨rfl, rfl⟩

/-- C9: assigning a non-null value that is not an instance of the target
model raises `TypeError` and leaves the whole reference state (cached slot
and derived foreign-identifier attribute) unchanged. -/
theorem C9_reference_bad_type_no_mutation (st : RefState) (tag : String) :
    ReferenceField_set st (RefValue.wrong tag) = (some "TypeError", st) := rfl

/-- C6: first access of a list-of-references field on a non-new instance
resolves each stored identifier through the target model's
lookup-by-identifier, silently dropping unresolvable entries and preserving
the stored order (the result is exactly `stored.filterMap lookup`); in
particular stored identifiers `[1, 2, 3]` with `2` unresolvable materialize
as `[obj1, obj3]` of length 2. -/
theorem C6_list_materialization {β : Type} (lookup : ℕ → Option β)
    (d stored : List ℕ) :
    (ListField_get lookup false d stored none).1 = stored.filterMap lookup ∧
    (∀ (obj1 obj3 : β) (lk : ℕ → Option β), lk 1 = some obj1 → lk 2 = none →
      lk 3 = some obj3 →
      (ListField_get lk false d [1, 2, 3] none).1 = [obj1, obj3] ∧
      (ListField_get lk false d [1, 2, 3] none).1.length = 2) := by
  constructor
  · simp [ListField_get, List.filterMap_map]
  · intro o1 o3 lk h1 h2 h3
    constructor <;> simp [ListField_get, h1, h2, h3]

/-- C6 witness: the concrete `[1, 2, 3]` example with identifier `2`
unresolvable. -/
theorem C6_witness :
    (ListField_get (fun k => if k = 2 then none else some k) false ([] : List ℕ)
      [1, 2, 3] none).1 = [1, 3] ∧
    (ListField_get (fun k => if k = 2 then none else some k) false ([] : List ℕ)
      [1, 2, 3] none).1.length = 2 :=
  (C6_list_materialization (fun k => if k = 2 then none else some k) [] []).2
    1 3 (fun k => if k = 2 then none else some k) rfl rfl rfl

/-- C7: a counter on a not-yet-persisted instance always reads zero; on a
persisted instance it reads the stored value directly (an absent stored
value reads as zero, a present one as its integer parse), the result never
depends on the per-instance cache slot, and any assignment raises the
illegal-mutation error. -/
theorem C7_counter (stored : Option String) (c c1 c2 : Option ℤ) (s : String)
    (n : ℤ) (b : Bool) :
    Counter_get true stored c = Except.ok 0 ∧
    Counter_get false none c = Except.ok 0 ∧
    (pyint_parse s = some n → Counter_get false (some s) c = Except.ok n) ∧
    Counter_get b stored c1 = Counter_get b stored c2 ∧
    (∀ v : PyVal, Counter_set v = Except.error "can't set a counter.") := by
  refine ⟨rfl, rfl, fun h => ?_, rfl, fun v => rfl⟩
  simp [Counter_get, h]

/-- C7 witness: a persisted instance with stored value `"5"` reads `5`. -/
theorem C7_witness : Counter_get false (some "5") none = Except.ok 5 :=
  (C7_counter (some "5") none none none "5" 5 false).2.2.1 rfl

/-- C8: a character-string field `required=True, max_length=5` validated
against `"toolong"` raises exactly the single error
`("name", "exceeds max length")` — so the error list contains that pair and
no type error and no required error — whatever the uniqueness query and the
instance identifier. -/
theorem C8_charfield_scenario (filt : String → List ℕ) (instId : Option ℕ) :
    CharField_validate "name" true false 5 none filt instId (some "toolong") =
      Except.error [("name", "exceeds max length")] := rfl

/-- C1: one `Attribute.validate` call records exactly the concatenation, in
the fixed order type check → required check → uniqueness check → custom
validator, of each check's errors, and raises them together as one aggregate
failure when the list is non-empty; a field with no errors raises nothing. -/
theorem C1_validate_order (name : String) (acceptable : PyVal → Bool)
    (storage : PyVal → String) (filt : String → List ℕ) (instId : Option ℕ)
    (required unique : Bool)
    (validator : Option (String → PyVal → List FieldErr)) (val : PyVal) :
    Attribute_validate name acceptable storage filt instId required unique
        validator val =
      (if typeCheck name acceptable val ++ requiredCheck name required val ++
          uniquenessCheck name storage filt instId unique val ++
          customCheck name validator val = [] then Except.ok ()
       else Except.error (typeCheck name acceptable val ++
          requiredCheck name required val ++
          uniquenessCheck name storage filt instId unique val ++
          customCheck name validator val)) := by
  unfold Attribute_validate typeCheck requiredCheck uniquenessCheck customCheck
  cases hv : validator <;>
    cases hu : Attribute_validate_uniqueness name storage filt instId val <;>
    simp only [hu] <;>
    split_ifs <;>
    simp_all [List.append_assoc]

/-- C2: `validate_uniqueness` encodes the value with the field's codec and
queries the model's index for records carrying that encoded value; it
returns the `'not unique'` error exactly when (a) more than one match
exists, or (b) exactly one match exists but the instance has no identifier
yet, or (c) exactly one match exists whose identifier differs from the
instance's; in particular a persisted record whose single match is itself is
never flagged. -/
theorem C2_uniqueness_rule (name : String) (storage : PyVal → String)
    (filt : String → List ℕ) (instId : Option ℕ) (val : PyVal) :
    (Attribute_validate_uniqueness name storage filt instId val =
        some (name, "not unique") ↔
      (1 < (filt (storage val)).length ∨
       ((filt (storage val)).length = 1 ∧ instId = none) ∨
       ((filt (storage val)).length = 1 ∧ instId ≠ none ∧
         (filt (storage val)).head? ≠ instId))) ∧
    (∀ i : ℕ, instId = some i → filt (storage val) = [i] →
      Attribute_validate_uniqueness name storage filt instId val = none) := by
  constructor
  · unfold Attribute_validate_uniqueness
    rcases hms : filt (storage val) with _ | ⟨m, t⟩
    · simp
    · rcases t with _ | ⟨m2, t2⟩
      · cases instId with
        | none => simp
        | some i =>
          by_cases hmi : m = i
          · simp [hmi]
          · simp [hmi]
      · cases instId <;> simp
  · intro i hi hms
    unfold Attribute_validate_uniqueness
    rw [hms, hi]
    simp

/-- C2 witness: a persisted record (identifier 7) whose only index match is
itself validates as unique. -/
theorem C2_witness :
    Attribute_validate_uniqueness "f" py_str (fun _ => [7]) (some 7)
      (PyVal.vstr "x") = none :=
  (C2_uniqueness_rule "f" py_str (fun _ => [7]) (some 7) (PyVal.vstr "x")).2
    7 rfl rfl

/-- C10: on a `unique=True` field, `Attribute.validate` runs the uniqueness
check only for a truthy value: with the falsy non-null values int `0`, bool
`False` and the empty string, the outcome never depends on the index query
or the instance identifier, and (with no custom validator) the error list
never contains `(name, 'not unique')`, regardless of duplicates in the
store. -/
theorem C10_falsy_skips_uniqueness (name : String) (acceptable : PyVal → Bool)
    (storage : PyVal → String) (f1 f2 : String → List ℕ) (i1 i2 : Option ℕ)
    (required : Bool) (validator : Option (String → PyVal → List FieldErr)) :
    (Attribute_validate name acceptable storage f1 i1 required true validator
        (PyVal.vint 0) =
      Attribute_validate name acceptable storage f2 i2 required true validator
        (PyVal.vint 0)) ∧
    ((name, "not unique") ∉ errorsOf (Attribute_validate name acceptable
        storage f1 i1 required true none (PyVal.vint 0))) ∧
    (Attribute_validate name acceptable storage f1 i1 required true validator
        (PyVal.vbool false) =
      Attribute_validate name acceptable storage f2 i2 required true validator
        (PyVal.vbool false)) ∧
    ((name, "not unique") ∉ errorsOf (Attribute_validate name acceptable
        storage f1 i1 required true none (PyVal.vbool false))) ∧
    (Attribute_validate name acceptable storage f1 i1 required true validator
        (PyVal.vstr "") =
      Attribute_validate name acceptable storage f2 i2 required true validator
        (PyVal.vstr "")) ∧
    ((name, "not unique") ∉ errorsOf (Attribute_validate name acceptable
        storage f1 i1 required true none (PyVal.vstr ""))) := by
  refine ⟨rfl, ?_, rfl, ?_, rfl, ?_⟩ <;>
    · unfold Attribute_validate errorsOf
      by_cases ha : acceptable (PyVal.vint 0) = false <;>
        by_cases hb : acceptable (PyVal.vbool false) = false <;>
        by_cases hc : acceptable (PyVal.vstr "") = false <;>
        cases required <;>
        simp [ha, hb, hc, py_truthy, py_strip, py_str, str_of_int, natToDigits]

end Redisco
